import Mathlib

/-!
# Verification of the form-submission server

A shallow embedding of the repository's two source files:

* `src/server.js` — the live Express server: `POST /submit-form` validates
  required contact fields, uploads multipart images to the Shopify Files API
  one by one (skipping per-image failures), writes a metafield
  (namespace `custom_forms`, key `valuation_form`) whose JSON value collects
  the form fields and the uploaded image URLs, and sends a notification email.
* `src/unnamed/part_000` — an earlier revision of the same server whose
  record writer uses namespace `custom` and a time-derived key
  `form_submission_<Date.now()>`.

JavaScript conventions modelled explicitly:
* a possibly-absent string-valued field is `Option String`; the emptiness
  test `!req.body[field]` is true exactly when the field is `none` or `some ""`
  (both are falsy);
* `JSON.stringify` drops object members whose value is `undefined`, so an
  object literal with possibly-undefined members is embedded as a list of
  key/value pairs from which `none`-valued members are omitted (`optStr`);
* template interpolation of `undefined` produces the string `"undefined"`
  (`jsStr`).

Remote collaborators (the Shopify admin API and the SMTP relay) are modelled
as an oracle (`Remote`) fixing the outcome of each call; the handler returns
its HTTP response together with the ordered trace of remote calls it issued.
-/

set_option autoImplicit false

namespace FormServer

/-- A JSON value, as far as this server constructs them: the documents built
for `JSON.stringify` contain only strings, arrays, objects and `null`. -/
inductive Json where
  | null : Json
  | str : String → Json
  | arr : List Json → Json
  | obj : List (String × Json) → Json

/-- First-match lookup among the members of a JSON object, the semantics a
consumer parsing the stringified document back observes. -/
def lookupFields : List (String × Json) → String → Option Json
  | [], _ => none
  | (k', v) :: rest, k => if k' = k then some v else lookupFields rest k

/-- Member access on a JSON value (objects only). -/
def jlookup : Json → String → Option Json
  | Json.obj fields, k => lookupFields fields k
  | _, _ => none

/-- Two-level member access, e.g. `doc.itemDetails.brand`. -/
def jlookupIn (v : Json) (k1 k2 : String) : Option Json :=
  match jlookup v k1 with
  | some w => jlookup w k2
  | none => none

/-- `JSON.stringify` drops members whose value is `undefined`: an object
member `k: v` with `v : Option String` contributes `[(k, str v)]` when
defined and nothing when `undefined`. -/
def optStr (k : String) : Option String → List (String × Json)
  | none => []
  | some s => [(k, Json.str s)]

/-- An object literal all of whose members are possibly-undefined strings. -/
def optChain : List (String × Option String) → List (String × Json)
  | [] => []
  | (k, v) :: rest => optStr k v ++ optChain rest

/-- Template interpolation of a possibly-undefined value: JavaScript renders
`undefined` as the string "undefined". -/
def jsStr (o : Option String) : String := o.getD "undefined"

/-- `x || d` for a possibly-undefined string `x`: both `undefined` and the
empty string are falsy. -/
def jsOr (o : Option String) (d : String) : String :=
  if o.getD "" = "" then d else o.getD ""

/-- One image slot of the client-side `images` object
(front / back / accessories), as `createMetafieldData` reads it:
an object with `file` and `preview` members. `preview` typically holds a
base64 data-URI string. -/
structure SlotImage where
  file : Option String
  preview : Option String

/-- The `images` member a JSON body may carry, keyed by slot. -/
structure ImagesMap where
  front : Option SlotImage
  back : Option SlotImage
  accessories : Option SlotImage

/-- `req.body` of a `/submit-form` request: every form field the two source
files ever read. Absent fields are `none`. -/
structure FormBody where
  firstName : Option String
  lastName : Option String
  email : Option String
  phone : Option String
  referralSource : Option String
  category : Option String
  brand : Option String
  modelNo : Option String
  condition : Option String
  hasBox : Option String
  hasPapers : Option String
  itemType : Option String
  metalType : Option String
  diamondCarat : Option String
  goldKarat : Option String
  itemWeight : Option String
  askingPrice : Option String
  additionalInfo : Option String
  yearOfPurchase : Option String
  images : Option ImagesMap

/-- One multipart file from `req.files` (multer memory storage): original
name, MIME type, reported size and the raw byte buffer. -/
structure UploadFile where
  originalname : String
  mimetype : String
  size : Nat
  buffer : List Nat

/-- The alphabet used by `Buffer.toString('base64')`. -/
def base64Table : List Char :=
  "ABCDEFGHIJKLMNOPQRSTUVWXYZabcdefghijklmnopqrstuvwxyz0123456789+/".toList

/-- Digit of the base64 alphabet. -/
def b64c (n : Nat) : Char := base64Table.getD n 'A'

/-- `Buffer.toString('base64')`: standard RFC 4648 encoding with padding. -/
def base64Encode : List Nat → String
  | [] => ""
  | [a] => String.mk [b64c (a / 4), b64c (a % 4 * 16), '=', '=']
  | [a, b] => String.mk [b64c (a / 4), b64c (a % 4 * 16 + b / 16), b64c (b % 16 * 4), '=']
  | a :: b :: c :: rest =>
      String.mk [b64c (a / 4), b64c (a % 4 * 16 + b / 16), b64c (b % 16 * 4 + c / 64),
        b64c (c % 64)] ++ base64Encode rest

/-- The `FileCreateInput` variable of the `fileCreate` GraphQL mutation, as
`server.js` builds it for each multipart file. -/
structure FileCreateInput where
  originalSource : String
  contentType : String
  filename : String
  fileSize : Nat
  data : String

/-- `server.js` sends, per file: original name, MIME type, size, and the
base64 encoding of the raw buffer (`file.buffer.toString('base64')`). -/
def filePayload (f : UploadFile) : FileCreateInput :=
  { originalSource := f.originalname
    contentType := f.mimetype
    filename := f.originalname
    fileSize := f.size
    data := base64Encode f.buffer }

/-- The `input` variable of the `metafieldCreate` mutation (the fixed GraphQL
query text is omitted; only the data varies). `part_000`'s writer sends no
`ownerId`, hence the `Option`. The `value` field holds the JSON document the
source passes to `JSON.stringify`. -/
structure MetafieldInput where
  «namespace» : String
  key : String
  type : String
  value : Json
  ownerId : Option String

/-- Outcome of one `fileCreate` call: either axios throws (network error or
non-2xx status), or it resolves (HTTP 200) with a `userErrors` list and an
optional `files[0].url`. -/
inductive FileCreateOutcome where
  | transportError : FileCreateOutcome
  | ok (userErrors : List (String × String)) (url : Option String) : FileCreateOutcome

/-- Outcome of the `metafieldCreate` call: either axios throws, or it
resolves (HTTP 200) with a `userErrors` list. -/
inductive MetafieldOutcome where
  | transportError : MetafieldOutcome
  | ok (userErrors : List (String × String)) : MetafieldOutcome

/-- The oracle fixing the remote collaborators' behaviour for one request:
the outcome of the i-th image upload, of the metafield write, and whether
`transporter.sendMail` resolves (`true`) or rejects (`false`). -/
structure Remote where
  fileCreate : Nat → FileCreateOutcome
  metafieldCreate : MetafieldOutcome
  sendMail : Bool

/-- The nodemailer message `sendEmailNotification` builds. -/
structure MailOptions where
  «from» : Option String
  «to» : Option String
  subject : String
  html : String

/-- A remote call issued by the handler, in order. -/
inductive RemoteCall where
  | fileCreate (input : FileCreateInput) : RemoteCall
  | metafieldCreate (input : MetafieldInput) : RemoteCall
  | sendMail (mail : MailOptions) : RemoteCall

/-- Recogniser for image-upload calls in a trace. -/
def isFileCreateCall : RemoteCall → Bool
  | RemoteCall.fileCreate _ => true
  | _ => false

/-- The JSON response body of `/submit-form` (core fields; the 500 branch
additionally echoes `error` and `details`, which no claim concerns). -/
structure HttpResponse where
  status : Nat
  success : Bool
  message : String

/-- The environment variables both source files read. -/
structure Env where
  SHOPIFY_ACCESS_TOKEN : Option String
  SHOPIFY_SHOP_DOMAIN : Option String
  SHOP_ID : Option String
  EMAIL_USER : Option String
  EMAIL_PASS : Option String
  NOTIFICATION_EMAIL : Option String
  PORT : Option String

/-- `getShopifyHeaders()` from `server.js`: built from `process.env` at call
time, with no presence check — a missing token yields a header without a
value. -/
structure ShopifyHeaders where
  accessToken : Option String
  contentType : String
  accept : String

/-- `getShopifyHeaders` reads `process.env.SHOPIFY_ACCESS_TOKEN` directly. -/
def getShopifyHeaders (env : Env) : ShopifyHeaders :=
  { accessToken := env.SHOPIFY_ACCESS_TOKEN
    contentType := "application/json"
    accept := "application/json" }

/-- What startup can do: bind the port, or abort with an error message. -/
inductive StartOutcome where
  | listening (port : String) : StartOutcome
  | aborted (message : String) : StartOutcome

/-- Startup as written in both source files: no configuration validation of
any kind precedes `app.listen(PORT, ...)`; the server always starts, on
`process.env.PORT || 8080`. -/
def startServer (env : Env) : StartOutcome :=
  StartOutcome.listening (jsOr env.PORT "8080")

/-- `const requiredFields = ['firstName', 'lastName', 'email', 'phone']`. -/
def requiredFields : List String := ["firstName", "lastName", "email", "phone"]

/-- Dynamic field access `req.body[field]` for the validated fields. -/
def getField (body : FormBody) : String → Option String
  | "firstName" => body.firstName
  | "lastName" => body.lastName
  | "email" => body.email
  | "phone" => body.phone
  | _ => none

/-- `requiredFields.filter(field => !req.body[field])`: a field is missing
when absent or empty (both falsy). -/
def missingFields (body : FormBody) : List String :=
  requiredFields.filter (fun f => (getField body f).getD "" = "")

/-- `if (imageUrl) uploadedImageURLs.push(imageUrl)` after the per-file
error checks: the URL pushed by one upload iteration, if any.
`transportError` is caught by the inner `try`/`catch` (logged, loop
continues); a non-empty `userErrors` hits `continue`; `files[0]?.url`
being absent or empty (falsy) skips the push. -/
def pushedUrl : FileCreateOutcome → Option String
  | FileCreateOutcome.transportError => none
  | FileCreateOutcome.ok userErrors url =>
      if userErrors.isEmpty then
        match url with
        | some u => if u = "" then none else some u
        | none => none
      else none

/-- The sequential upload loop of `server.js`, from file index `i`: each
file issues one `fileCreate` call (the POST happens before its outcome is
known), successful URLs are appended in turn, failures are skipped. Returns
the collected URLs and the calls issued. -/
def uploadImagesGo (remote : Remote) : Nat → List UploadFile → List String × List RemoteCall
  | _, [] => ([], [])
  | i, f :: rest =>
      let res := uploadImagesGo remote (i + 1) rest
      let urls :=
        match pushedUrl (remote.fileCreate i) with
        | some u => u :: res.1
        | none => res.1
      (urls, RemoteCall.fileCreate (filePayload f) :: res.2)

/-- The whole upload loop: `let uploadedImageURLs = []; for (const file of
files) ...`. -/
def uploadImages (remote : Remote) (files : List UploadFile) :
    List String × List RemoteCall :=
  uploadImagesGo remote 0 files

/-- The JSON document `server.js` stringifies into the metafield value:
customer info, the watch-oriented item fields, the uploaded image URLs in
collection order, and a timestamp taken at build time (`now`). Fields the
client did not send are `undefined` and dropped by `JSON.stringify`. -/
def handlerMetafieldValue (formData : FormBody) (uploadedImageURLs : List String)
    (now : String) : Json :=
  Json.obj
    [("customerInfo", Json.obj (optChain
        [("firstName", formData.firstName),
         ("lastName", formData.lastName),
         ("email", formData.email),
         ("phone", formData.phone),
         ("referralSource", formData.referralSource)])),
     ("itemDetails", Json.obj (optChain
        [("category", formData.category),
         ("brand", formData.brand),
         ("modelNo", formData.modelNo),
         ("condition", formData.condition),
         ("hasBox", formData.hasBox),
         ("hasPapers", formData.hasPapers),
         ("askingPrice", formData.askingPrice),
         ("additionalInfo", formData.additionalInfo)])),
     ("images", Json.arr (uploadedImageURLs.map Json.str)),
     ("submittedAt", Json.str now)]

/-- The `metafieldCreate` input the live handler sends: fixed namespace
`custom_forms`, fixed key `valuation_form`, type `json`, owner
`gid://shopify/Shop/<SHOP_ID>`. -/
def handlerMetafieldInput (env : Env) (formData : FormBody)
    (uploadedImageURLs : List String) (now : String) : MetafieldInput :=
  { «namespace» := "custom_forms"
    key := "valuation_form"
    type := "json"
    value := handlerMetafieldValue formData uploadedImageURLs now
    ownerId := some ("gid://shopify/Shop/" ++ jsStr env.SHOP_ID) }

/-- One inline image tag of the notification email. -/
def imgTag (url : String) : String :=
  "<img src=\"" ++ url ++ "\" width=\"200\"/>"

/-- The images section of the email body:
`imageUrls.length > 0 ? '<p><b>Images:</b></p>' + imageUrls.map(...).join('') : ''`. -/
def imagesBlock (imageUrls : List String) : String :=
  if imageUrls.length > 0 then
    "<p><b>Images:</b></p>" ++ String.join (imageUrls.map imgTag)
  else ""

/-- The HTML body of the notification email (whitespace normalised). -/
def emailHtml (name : String) (email : Option String) (message : String)
    (imageUrls : List String) : String :=
  "<h2>New Form Submission</h2>" ++
  "<p><b>Name:</b> " ++ name ++ "</p>" ++
  "<p><b>Email:</b> " ++ jsStr email ++ "</p>" ++
  "<p><b>Message:</b> " ++ message ++ "</p>" ++
  imagesBlock imageUrls

/-- `sendEmailNotification(name, email, message, imageUrls)`: the nodemailer
message it builds before awaiting `transporter.sendMail`. -/
def sendEmailNotification (env : Env) (name : String) (email : Option String)
    (message : String) (imageUrls : List String) : MailOptions :=
  { «from» := env.EMAIL_USER
    «to» := env.NOTIFICATION_EMAIL
    subject := "New Form Submission"
    html := emailHtml name email message imageUrls }

/-- The mail the handler sends: name is the template
`firstName lastName`, message is `formData.additionalInfo || ''`. -/
def handlerMail (env : Env) (formData : FormBody)
    (uploadedImageURLs : List String) : MailOptions :=
  sendEmailNotification env
    (jsStr formData.firstName ++ " " ++ jsStr formData.lastName)
    formData.email
    (formData.additionalInfo.getD "")
    uploadedImageURLs

/-- The `POST /submit-form` handler of `server.js`, as a function of the
environment, the remote oracle, the parsed body, the multipart files and the
timestamp taken when the metafield value is built. Returns the HTTP response
and the ordered trace of remote calls.

Control flow follows the source exactly: validation first (400, no remote
calls); then the upload loop; then the metafield POST — whose `userErrors`
the source never inspects: after any resolved (HTTP 200) response it
proceeds to the email; an axios rejection anywhere is caught by the outer
`try`/`catch` and mapped to a 500 "Internal server error". -/
def submitForm (env : Env) (remote : Remote) (body : FormBody)
    (files : List UploadFile) (now : String) : HttpResponse × List RemoteCall :=
  if (missingFields body).isEmpty = false then
    ({ status := 400, success := false,
       message := "Missing required fields: " ++
         String.intercalate ", " (missingFields body) }, [])
  else
    let up := uploadImages remote files
    let mf := handlerMetafieldInput env body up.1 now
    match remote.metafieldCreate with
    | MetafieldOutcome.transportError =>
        ({ status := 500, success := false, message := "Internal server error" },
         up.2 ++ [RemoteCall.metafieldCreate mf])
    | MetafieldOutcome.ok _ =>
        let mail := handlerMail env body up.1
        if remote.sendMail then
          ({ status := 200, success := true, message := "Form submitted successfully!" },
           up.2 ++ [RemoteCall.metafieldCreate mf, RemoteCall.sendMail mail])
        else
          ({ status := 500, success := false, message := "Internal server error" },
           up.2 ++ [RemoteCall.metafieldCreate mf, RemoteCall.sendMail mail])

/-- The record writer of `src/unnamed/part_000` (the earlier revision):
namespace `custom`, key `form_submission_<Date.now()>` — time-derived,
unique per submission — and no `ownerId`. Its value collects the body's
`name`, `email`, `message`, `checkbox` fields and the uploaded URLs. -/
def part000MetafieldData (name email message checkbox : Option String)
    (uploadedImageURLs : List String) (nowMs : Nat) : MetafieldInput :=
  { «namespace» := "custom"
    key := "form_submission_" ++ toString nowMs
    type := "json"
    value := Json.obj (optChain
        [("name", name), ("email", email), ("message", message),
         ("checkbox", checkbox)] ++
      [("images", Json.arr (uploadedImageURLs.map Json.str))])
    ownerId := none }

/-- The `images` member `createMetafieldData` builds for one slot:
`slot ? { file: slot.file, preview: slot.preview } : null`. -/
def slotJson : Option SlotImage → Json
  | none => Json.null
  | some s => Json.obj (optStr "file" s.file ++ optStr "preview" s.preview)

/-- The helper `createMetafieldData(formData)` of `server.js` — defined in
the source but never called by any route. Unlike the live handler's
document, its value keeps the jewellery fields (`itemType`, `metalType`,
`diamondCarat`), the gold fields (`goldKarat`, `itemWeight`), the
slot-keyed `images` object and `yearOfPurchase`. The source dereferences
`formData.images.<slot>` unconditionally, so it is given the `images`
object it requires. -/
def createMetafieldData (env : Env) (formData : FormBody) (images : ImagesMap)
    (now : String) : MetafieldInput :=
  { «namespace» := "custom_forms"
    key := "valuation_form"
    type := "json"
    value := Json.obj
      ([("customerInfo", Json.obj (optChain
           [("firstName", formData.firstName),
            ("lastName", formData.lastName),
            ("email", formData.email),
            ("phone", formData.phone),
            ("referralSource", formData.referralSource)])),
        ("itemDetails", Json.obj (optChain
           [("category", formData.category),
            ("brand", formData.brand),
            ("modelNo", formData.modelNo),
            ("condition", formData.condition),
            ("hasBox", formData.hasBox),
            ("hasPapers", formData.hasPapers),
            ("itemType", formData.itemType),
            ("metalType", formData.metalType),
            ("diamondCarat", formData.diamondCarat),
            ("goldKarat", formData.goldKarat),
            ("itemWeight", formData.itemWeight),
            ("askingPrice", formData.askingPrice),
            ("additionalInfo", formData.additionalInfo)])),
        ("images", Json.obj
           [("front", slotJson images.front),
            ("back", slotJson images.back),
            ("accessories", slotJson images.accessories)]),
        ("submittedAt", Json.str now)] ++
       optStr "yearOfPurchase" formData.yearOfPurchase)
    ownerId := some ("gid://shopify/Shop/" ++ jsStr env.SHOP_ID) }

/-! ## Helper lemmas -/

/-- Looking a key up in an all-optional object literal finds nothing when no
member of the literal carries that key. -/
theorem lookupFields_optChain_of_not_mem (k : String) :
    ∀ ps : List (String × Option String), (∀ q ∈ ps, q.1 ≠ k) →
      lookupFields (optChain ps) k = none := by
  intro ps
  induction ps with
  | nil => intro _; rfl
  | cons p rest ih =>
      intro h
      obtain ⟨k', v⟩ := p
      have hk : k' ≠ k := h (k', v) (List.mem_cons_self _ _)
      have hrest : ∀ q ∈ rest, q.1 ≠ k := fun q hq => h q (List.mem_cons_of_mem _ hq)
      cases v with
      | none => simpa [optChain, optStr] using ih hrest
      | some s => simpa [optChain, optStr, lookupFields, hk] using ih hrest

/-- First-match lookup in an all-optional object literal with pairwise
distinct keys behaves as `List.lookup` on the literal: a member that is
present yields its string, a member that is `undefined` (dropped by
`JSON.stringify`) or absent yields nothing. -/
theorem lookupFields_optChain (k : String) :
    ∀ ps : List (String × Option String), (ps.map Prod.fst).Nodup →
      lookupFields (optChain ps) k = (List.lookup k ps).bind (Option.map Json.str) := by
  intro ps
  induction ps with
  | nil => intro _; rfl
  | cons p rest ih =>
      intro h
      obtain ⟨k', v⟩ := p
      rw [List.map_cons, List.nodup_cons] at h
      obtain ⟨hnot, hnd⟩ := h
      by_cases hk : k = k'
      · subst hk
        have hnone : lookupFields (optChain rest) k = none := by
          refine lookupFields_optChain_of_not_mem k rest (fun q hq => ?_)
          intro heq
          have hmem : q.1 ∈ rest.map Prod.fst := List.mem_map_of_mem Prod.fst hq
          rw [heq] at hmem
          exact hnot hmem
        cases v with
        | none => simp [optChain, optStr, List.lookup, hnone]
        | some s => simp [optChain, optStr, lookupFields, List.lookup]
      · have hbeq : (k == k') = false := by simp [hk]
        cases v with
        | none => simp [optChain, optStr, List.lookup, hbeq, ih hnd]
        | some s => simp [optChain, optStr, lookupFields, List.lookup, hbeq,
            Ne.symm hk, ih hnd]

/-- A per-image failure in the sense of the spec: the axios call rejects, or
it resolves with a non-empty `userErrors` list. -/
def imageCallFails (o : FileCreateOutcome) : Prop :=
  o = FileCreateOutcome.transportError ∨
    ∃ e es url, o = FileCreateOutcome.ok (e :: es) url

/-- A failed image upload pushes no URL. -/
theorem pushedUrl_of_fails {o : FileCreateOutcome} (h : imageCallFails o) :
    pushedUrl o = none := by
  rcases h with h | ⟨e, es, url, h⟩ <;> subst h <;> simp [pushedUrl]

/-- The URLs the upload loop starting at index `i` collects are exactly the
successful outcomes, in submission order. -/
theorem uploadImagesGo_urls (remote : Remote) :
    ∀ (files : List UploadFile) (i : Nat),
      (uploadImagesGo remote i files).1 =
        (List.range' i files.length).filterMap (fun j => pushedUrl (remote.fileCreate j)) := by
  intro files
  induction files with
  | nil => intro i; rfl
  | cons f rest ih =>
      intro i
      rw [List.length_cons, List.range'_succ, List.filterMap_cons]
      cases h : pushedUrl (remote.fileCreate i) <;>
        simp [uploadImagesGo, h, ih (i + 1)]

/-- The upload loop issues exactly one `fileCreate` call per submitted file,
in submission order, each carrying that file's payload — regardless of the
outcomes. -/
theorem uploadImagesGo_calls (remote : Remote) :
    ∀ (files : List UploadFile) (i : Nat),
      (uploadImagesGo remote i files).2 =
        files.map (fun f => RemoteCall.fileCreate (filePayload f)) := by
  intro files
  induction files with
  | nil => intro i; rfl
  | cons f rest ih =>
      intro i
      cases h : pushedUrl (remote.fileCreate i) <;>
        simp [uploadImagesGo, h, ih (i + 1)]

/-! ## Concrete fixtures -/

/-- A fully configured environment. -/
def cEnv : Env :=
  { SHOPIFY_ACCESS_TOKEN := some "shpat-token"
    SHOPIFY_SHOP_DOMAIN := some "shop.myshopify.com"
    SHOP_ID := some "12345"
    EMAIL_USER := some "sender@example.com"
    EMAIL_PASS := some "secret"
    NOTIFICATION_EMAIL := some "staff@example.com"
    PORT := some "8080" }

/-- An environment in which every variable is unset. -/
def envMissingAll : Env :=
  { SHOPIFY_ACCESS_TOKEN := none, SHOPIFY_SHOP_DOMAIN := none, SHOP_ID := none,
    EMAIL_USER := none, EMAIL_PASS := none, NOTIFICATION_EMAIL := none, PORT := none }

/-- A remote on which every call succeeds cleanly. -/
def okRemote : Remote :=
  { fileCreate := fun _ => FileCreateOutcome.ok [] (some "https://cdn.example/img.png")
    metafieldCreate := MetafieldOutcome.ok []
    sendMail := true }

/-- A remote whose metafield write resolves with HTTP 200 but carries a
non-empty `userErrors` list (a business error); everything else succeeds. -/
def metafieldErrorRemote : Remote :=
  { fileCreate := fun _ => FileCreateOutcome.ok [] (some "https://cdn.example/img.png")
    metafieldCreate := MetafieldOutcome.ok [("key", "Metafield key is invalid")]
    sendMail := true }

/-- A remote whose `sendMail` rejects; every Shopify call succeeds. -/
def mailFailRemote : Remote :=
  { fileCreate := fun _ => FileCreateOutcome.ok [] (some "https://cdn.example/img.png")
    metafieldCreate := MetafieldOutcome.ok []
    sendMail := false }

/-- A remote on which the second of three image uploads resolves with HTTP
200 but a non-empty `userErrors` list, while uploads 0 and 2 succeed. -/
def midFailRemote : Remote :=
  { fileCreate := fun i =>
      if i = 1 then FileCreateOutcome.ok [("files", "Invalid image data")] none
      else if i = 0 then FileCreateOutcome.ok [] (some "https://cdn.example/a.png")
      else FileCreateOutcome.ok [] (some "https://cdn.example/c.png")
    metafieldCreate := MetafieldOutcome.ok []
    sendMail := true }

/-- A submission with every form field populated, including the jewellery
fields, the gold fields and the year of purchase. -/
def validBody : FormBody :=
  { firstName := some "Ada", lastName := some "Lovelace"
    email := some "ada@example.com", phone := some "0123456789"
    referralSource := some "google"
    category := some "gold", brand := some "Rolex", modelNo := some "116610"
    condition := some "good", hasBox := some "yes", hasPapers := some "no"
    itemType := some "ring", metalType := some "gold"
    diamondCarat := some "0.5", goldKarat := some "18", itemWeight := some "12.5"
    askingPrice := some "1000", additionalInfo := some "hello"
    yearOfPurchase := some "1999", images := none }

/-- `validBody` with the required `phone` field absent. -/
def bodyNoPhone : FormBody := { validBody with phone := none }

/-- A slot image whose preview is a base64 string with a data-URI prefix. -/
def frontSlot : SlotImage :=
  { file := some "front.png", preview := some "data:image/png;base64,iVBORw0KGgo=" }

/-- A slot image whose preview is a bare base64 string (no prefix). -/
def backSlot : SlotImage :=
  { file := some "back.png", preview := some "iVBORw0KGgo=" }

/-- A JSON-style submission whose `images` member carries base64 data-URI
strings in its slot previews, with no multipart files. -/
def dataUriBody : FormBody :=
  { validBody with
    images := some (ImagesMap.mk (some frontSlot) (some backSlot) none) }

/-- A small concrete multipart file. -/
def cFile (n : String) : UploadFile :=
  { originalname := n, mimetype := "image/png", size := 3, buffer := [1, 2, 3] }

/-! ## Claims -/

/-- C1 (code_bug evidence): a submission whose metafield-create call
resolves with HTTP 200 carrying a non-empty `userErrors` list still gets an
overall HTTP 200 with `success: true` — `server.js` never inspects the
`metafieldCreate` response's `userErrors`, although the spec requires such a
business error to fail the whole submission with a 500. -/
theorem metafield_userErrors_ignored :
    metafieldErrorRemote.metafieldCreate =
      MetafieldOutcome.ok [("key", "Metafield key is invalid")] ∧
    (submitForm cEnv metafieldErrorRemote validBody [] "2024-01-01T00:00:00.000Z").1 =
      { status := 200, success := true, message := "Form submitted successfully!" } :=
  ⟨rfl, rfl⟩

/-- C2: a request missing any of the required fields `firstName`,
`lastName`, `email`, `phone` (absent or empty) is answered with HTTP 400,
`success: false` and a message naming the missing fields, and the trace of
remote calls is empty — no upload, no metafield write, no email. -/
theorem submitForm_missing_required_fields (env : Env) (remote : Remote)
    (body : FormBody) (files : List UploadFile) (now : String)
    (h : (missingFields body).isEmpty = false) :
    submitForm env remote body files now =
      ({ status := 400, success := false,
         message := "Missing required fields: " ++
           String.intercalate ", " (missingFields body) }, []) := by
  simp [submitForm, h]

/-- Witness for C2: a submission without `phone` yields the 400 response,
names `phone`, and issues no remote call. -/
theorem submitForm_missing_required_fields_witness :
    (missingFields bodyNoPhone).isEmpty = false ∧
    submitForm cEnv okRemote bodyNoPhone [] "t" =
      ({ status := 400, success := false,
         message := "Missing required fields: " ++
           String.intercalate ", " (missingFields bodyNoPhone) }, []) :=
  ⟨by decide, submitForm_missing_required_fields cEnv okRemote bodyNoPhone [] "t" (by decide)⟩

/-- C5 (counterexample): the record writer of `src/unnamed/part_000` does
not use the fixed namespace/key — its key is time-derived
(`form_submission_<Date.now()>`, differing across submissions) and its
namespace is `custom`, so the repository does not keep one metadata-key
semantics invariantly. -/
theorem part000_key_time_derived :
    (part000MetafieldData (some "Bob") (some "b@example.com") (some "hi") none []
        1700000000000).key = "form_submission_1700000000000" ∧
    (part000MetafieldData (some "Bob") (some "b@example.com") (some "hi") none []
        1700000000000).key ≠ "valuation_form" ∧
    (part000MetafieldData (some "Bob") (some "b@example.com") (some "hi") none []
        1700000000000).«namespace» = "custom" ∧
    (part000MetafieldData (some "Bob") (some "b@example.com") (some "hi") none []
        1700000000000).key ≠
      (part000MetafieldData (some "Bob") (some "b@example.com") (some "hi") none []
        1700000000001).key :=
  ⟨rfl, by decide, rfl, by decide⟩

/-- C5 (amended): each writer keeps its own semantics invariantly —
`server.js` (both its live handler and its unused helper) always uses the
fixed namespace `custom_forms` and key `valuation_form` (overwrite-latest),
while `part_000` always uses namespace `custom` and the time-derived key
`form_submission_<timestamp>` (append-new). -/
theorem metafield_key_semantics (env : Env) (body : FormBody) (urls : List String)
    (now : String) (imgs : ImagesMap) (name email message checkbox : Option String)
    (urls2 : List String) (nowMs : Nat) :
    (handlerMetafieldInput env body urls now).«namespace» = "custom_forms" ∧
    (handlerMetafieldInput env body urls now).key = "valuation_form" ∧
    (createMetafieldData env body imgs now).«namespace» = "custom_forms" ∧
    (createMetafieldData env body imgs now).key = "valuation_form" ∧
    (part000MetafieldData name email message checkbox urls2 nowMs).«namespace» = "custom" ∧
    (part000MetafieldData name email message checkbox urls2 nowMs).key =
      "form_submission_" ++ toString nowMs :=
  ⟨rfl, rfl, rfl, rfl, rfl, rfl⟩

/-- C7 (counterexample): a JSON body whose `images` member maps slots to
base64/data-URI strings is not relayed: the handler reads only the multipart
`req.files`, so the submission succeeds with zero `fileCreate` calls and an
empty `images` list in the written record — no base64 string is ever decoded
and no data-URI prefix is ever stripped. -/
theorem json_images_not_relayed :
    dataUriBody.images.isSome = true ∧
    ((submitForm cEnv okRemote dataUriBody [] "t").2.filter isFileCreateCall) = [] ∧
    (submitForm cEnv okRemote dataUriBody [] "t").1.success = true ∧
    jlookup (handlerMetafieldInput cEnv dataUriBody [] "t").value "images" =
      some (Json.arr []) :=
  ⟨rfl, rfl, rfl, rfl⟩

/-- C7 (amended): image upload is driven solely by the multipart files —
the handler's behaviour is independent of the body's `images` member, the
upload loop issues exactly one `fileCreate` call per multipart file, and
each call's `data` payload is the base64 encoding of that file's raw buffer
(no data-URI handling exists anywhere on the path). -/
theorem uploads_only_multipart_files (env : Env) (remote : Remote) (body : FormBody)
    (files : List UploadFile) (now : String) (imgs imgs2 : Option ImagesMap) :
    submitForm env remote { body with images := imgs } files now =
      submitForm env remote { body with images := imgs2 } files now ∧
    (uploadImages remote files).2 =
      files.map (fun f => RemoteCall.fileCreate (filePayload f)) ∧
    ∀ f : UploadFile, (filePayload f).data = base64Encode f.buffer := by
  refine ⟨?_, uploadImagesGo_calls remote files 0, fun f => rfl⟩
  cases body
  rfl

/-- C8 (counterexample): with every configuration variable unset, startup
does not abort — the server comes up listening on the default port, and the
Shopify headers built later simply carry no access token. -/
theorem startup_proceeds_without_config :
    startServer envMissingAll = StartOutcome.listening "8080" ∧
    (getShopifyHeaders envMissingAll).accessToken = none :=
  ⟨rfl, rfl⟩

/-- C8 (amended): the program performs no startup configuration validation
at all: for every environment it proceeds directly to listening on
`process.env.PORT || 8080`, and the Shopify headers always carry exactly
whatever `SHOPIFY_ACCESS_TOKEN` holds — absent when it is unset. -/
theorem no_startup_validation (env : Env) :
    startServer env = StartOutcome.listening (jsOr env.PORT "8080") ∧
    (getShopifyHeaders env).accessToken = env.SHOPIFY_ACCESS_TOKEN :=
  ⟨rfl, rfl⟩

/-! ## Evaluating lookups on the handler's metafield document -/

/-- Lookup hits the first member when its key matches. -/
theorem lookupFields_cons_eq (k : String) (v : Json) (rest : List (String × Json)) :
    lookupFields ((k, v) :: rest) k = some v := by
  simp [lookupFields]

/-- Lookup skips a member with a different key. -/
theorem lookupFields_cons_ne {k k' : String} (v : Json) (rest : List (String × Json))
    (h : k' ≠ k) : lookupFields ((k', v) :: rest) k = lookupFields rest k := by
  simp [lookupFields, h]

/-- Member access inside the `customerInfo` object of the document the live
handler writes behaves as first-match lookup among its five members. -/
theorem handlerValue_customerInfo (body : FormBody) (urls : List String)
    (now : String) (k : String) :
    jlookupIn (handlerMetafieldValue body urls now) "customerInfo" k =
      (List.lookup k
        [("firstName", body.firstName), ("lastName", body.lastName),
         ("email", body.email), ("phone", body.phone),
         ("referralSource", body.referralSource)]).bind (Option.map Json.str) := by
  simp only [handlerMetafieldValue, jlookupIn, jlookup, lookupFields_cons_eq]
  refine lookupFields_optChain k _ ?_
  show (["firstName", "lastName", "email", "phone", "referralSource"] : List String).Nodup
  decide

/-- Member access inside the `itemDetails` object of the document the live
handler writes behaves as first-match lookup among its eight members — the
jewellery fields, the gold fields and `yearOfPurchase` are not among them. -/
theorem handlerValue_itemDetails (body : FormBody) (urls : List String)
    (now : String) (k : String) :
    jlookupIn (handlerMetafieldValue body urls now) "itemDetails" k =
      (List.lookup k
        [("category", body.category), ("brand", body.brand),
         ("modelNo", body.modelNo), ("condition", body.condition),
         ("hasBox", body.hasBox), ("hasPapers", body.hasPapers),
         ("askingPrice", body.askingPrice),
         ("additionalInfo", body.additionalInfo)]).bind (Option.map Json.str) := by
  simp only [handlerMetafieldValue, jlookupIn, jlookup]
  rw [lookupFields_cons_ne _ _ (by decide), lookupFields_cons_eq]
  refine lookupFields_optChain k _ ?_
  show (["category", "brand", "modelNo", "condition", "hasBox", "hasPapers",
    "askingPrice", "additionalInfo"] : List String).Nodup
  decide

/-- C3 (counterexample): for a submission carrying the jewellery fields,
the gold fields and a year of purchase, the JSON document the live handler
writes drops them all — the helper that would keep them
(`createMetafieldData`) is never invoked — so parsing the record back does
not reproduce every input field. -/
theorem metafield_value_drops_item_fields :
    validBody.yearOfPurchase = some "1999" ∧
    validBody.goldKarat = some "18" ∧
    validBody.itemWeight = some "12.5" ∧
    validBody.itemType = some "ring" ∧
    validBody.metalType = some "gold" ∧
    validBody.diamondCarat = some "0.5" ∧
    (submitForm cEnv okRemote validBody [] "t").2 =
      [RemoteCall.metafieldCreate (handlerMetafieldInput cEnv validBody [] "t"),
       RemoteCall.sendMail (handlerMail cEnv validBody [])] ∧
    jlookup (handlerMetafieldInput cEnv validBody [] "t").value "yearOfPurchase" = none ∧
    jlookupIn (handlerMetafieldInput cEnv validBody [] "t").value "itemDetails" "goldKarat" = none ∧
    jlookupIn (handlerMetafieldInput cEnv validBody [] "t").value "itemDetails" "itemWeight" = none ∧
    jlookupIn (handlerMetafieldInput cEnv validBody [] "t").value "itemDetails" "itemType" = none ∧
    jlookupIn (handlerMetafieldInput cEnv validBody [] "t").value "itemDetails" "metalType" = none ∧
    jlookupIn (handlerMetafieldInput cEnv validBody [] "t").value "itemDetails" "diamondCarat" = none :=
  ⟨rfl, rfl, rfl, rfl, rfl, rfl, rfl, rfl, rfl, rfl, rfl, rfl, rfl⟩

/-- C3 (amended): the document the live handler writes round-trips exactly
the fields it serialises — the five customer fields and the eight
watch-oriented item fields come back verbatim (absent fields stay absent),
and the uploaded URLs come back as the `images` array in collection order —
while the jewellery fields, the gold fields and `yearOfPurchase` are never
written (the unused helper `createMetafieldData` would have kept
`yearOfPurchase`). -/
theorem handler_metafield_roundtrip (env : Env) (body : FormBody)
    (urls : List String) (now : String) (imgs : ImagesMap) :
    jlookupIn (handlerMetafieldValue body urls now) "customerInfo" "firstName" =
      Option.map Json.str body.firstName ∧
    jlookupIn (handlerMetafieldValue body urls now) "customerInfo" "lastName" =
      Option.map Json.str body.lastName ∧
    jlookupIn (handlerMetafieldValue body urls now) "customerInfo" "email" =
      Option.map Json.str body.email ∧
    jlookupIn (handlerMetafieldValue body urls now) "customerInfo" "phone" =
      Option.map Json.str body.phone ∧
    jlookupIn (handlerMetafieldValue body urls now) "customerInfo" "referralSource" =
      Option.map Json.str body.referralSource ∧
    jlookupIn (handlerMetafieldValue body urls now) "itemDetails" "category" =
      Option.map Json.str body.category ∧
    jlookupIn (handlerMetafieldValue body urls now) "itemDetails" "brand" =
      Option.map Json.str body.brand ∧
    jlookupIn (handlerMetafieldValue body urls now) "itemDetails" "modelNo" =
      Option.map Json.str body.modelNo ∧
    jlookupIn (handlerMetafieldValue body urls now) "itemDetails" "condition" =
      Option.map Json.str body.condition ∧
    jlookupIn (handlerMetafieldValue body urls now) "itemDetails" "hasBox" =
      Option.map Json.str body.hasBox ∧
    jlookupIn (handlerMetafieldValue body urls now) "itemDetails" "hasPapers" =
      Option.map Json.str body.hasPapers ∧
    jlookupIn (handlerMetafieldValue body urls now) "itemDetails" "askingPrice" =
      Option.map Json.str body.askingPrice ∧
    jlookupIn (handlerMetafieldValue body urls now) "itemDetails" "additionalInfo" =
      Option.map Json.str body.additionalInfo ∧
    jlookupIn (handlerMetafieldValue body urls now) "itemDetails" "itemType" = none ∧
    jlookupIn (handlerMetafieldValue body urls now) "itemDetails" "metalType" = none ∧
    jlookupIn (handlerMetafieldValue body urls now) "itemDetails" "diamondCarat" = none ∧
    jlookupIn (handlerMetafieldValue body urls now) "itemDetails" "goldKarat" = none ∧
    jlookupIn (handlerMetafieldValue body urls now) "itemDetails" "itemWeight" = none ∧
    jlookup (handlerMetafieldValue body urls now) "yearOfPurchase" = none ∧
    jlookup (handlerMetafieldValue body urls now) "images" =
      some (Json.arr (urls.map Json.str)) ∧
    jlookup (handlerMetafieldValue body urls now) "submittedAt" =
      some (Json.str now) ∧
    jlookup (createMetafieldData env body imgs now).value "yearOfPurchase" =
      Option.map Json.str body.yearOfPurchase := by
  refine ⟨?_, ?_, ?_, ?_, ?_, ?_, ?_, ?_, ?_, ?_, ?_, ?_, ?_, ?_, ?_, ?_, ?_, ?_,
      ?_, ?_, ?_, ?_⟩
  case _ => rw [handlerValue_customerInfo]; rfl
  case _ => rw [handlerValue_customerInfo]; rfl
  case _ => rw [handlerValue_customerInfo]; rfl
  case _ => rw [handlerValue_customerInfo]; rfl
  case _ => rw [handlerValue_customerInfo]; rfl
  case _ => rw [handlerValue_itemDetails]; rfl
  case _ => rw [handlerValue_itemDetails]; rfl
  case _ => rw [handlerValue_itemDetails]; rfl
  case _ => rw [handlerValue_itemDetails]; rfl
  case _ => rw [handlerValue_itemDetails]; rfl
  case _ => rw [handlerValue_itemDetails]; rfl
  case _ => rw [handlerValue_itemDetails]; rfl
  case _ => rw [handlerValue_itemDetails]; rfl
  case _ => rw [handlerValue_itemDetails]; rfl
  case _ => rw [handlerValue_itemDetails]; rfl
  case _ => rw [handlerValue_itemDetails]; rfl
  case _ => rw [handlerValue_itemDetails]; rfl
  case _ => rw [handlerValue_itemDetails]; rfl
  case _ =>
    simp only [handlerMetafieldValue, jlookup]
    rw [lookupFields_cons_ne _ _ (by decide), lookupFields_cons_ne _ _ (by decide),
      lookupFields_cons_ne _ _ (by decide), lookupFields_cons_ne _ _ (by decide)]
    rfl
  case _ =>
    simp only [handlerMetafieldValue, jlookup]
    rw [lookupFields_cons_ne _ _ (by decide), lookupFields_cons_ne _ _ (by decide),
      lookupFields_cons_eq]
  case _ =>
    simp only [handlerMetafieldValue, jlookup]
    rw [lookupFields_cons_ne _ _ (by decide), lookupFields_cons_ne _ _ (by decide),
      lookupFields_cons_ne _ _ (by decide), lookupFields_cons_eq]
  case _ =>
    simp only [createMetafieldData, jlookup, List.cons_append, List.nil_append]
    rw [lookupFields_cons_ne _ _ (by decide), lookupFields_cons_ne _ _ (by decide),
      lookupFields_cons_ne _ _ (by decide), lookupFields_cons_ne _ _ (by decide)]
    cases body.yearOfPurchase <;> simp [optStr, lookupFields]

/-- C4: when, among three submitted images, the second upload fails (a
rejected transport call or an HTTP 200 response with non-empty
`userErrors`), that image is dropped while the first and third URLs are
collected in order, appear in the written record's `images` array, and the
submission still succeeds overall. -/
theorem submitForm_per_image_failure_skipped (env : Env) (remote : Remote)
    (body : FormBody) (f0 f1 f2 : UploadFile) (now : String)
    (u0 u2 : String) (errs : List (String × String))
    (hv : (missingFields body).isEmpty = true)
    (h0 : remote.fileCreate 0 = FileCreateOutcome.ok [] (some u0)) (hu0 : u0 ≠ "")
    (h1 : imageCallFails (remote.fileCreate 1))
    (h2 : remote.fileCreate 2 = FileCreateOutcome.ok [] (some u2)) (hu2 : u2 ≠ "")
    (hm : remote.metafieldCreate = MetafieldOutcome.ok errs)
    (hs : remote.sendMail = true) :
    (uploadImages remote [f0, f1, f2]).1 = [u0, u2] ∧
    (submitForm env remote body [f0, f1, f2] now).1 =
      { status := 200, success := true, message := "Form submitted successfully!" } ∧
    jlookup (handlerMetafieldInput env body (uploadImages remote [f0, f1, f2]).1 now).value
        "images" = some (Json.arr [Json.str u0, Json.str u2]) ∧
    (submitForm env remote body [f0, f1, f2] now).2 =
      [RemoteCall.fileCreate (filePayload f0), RemoteCall.fileCreate (filePayload f1),
       RemoteCall.fileCreate (filePayload f2),
       RemoteCall.metafieldCreate (handlerMetafieldInput env body [u0, u2] now),
       RemoteCall.sendMail (handlerMail env body [u0, u2])] := by
  have p0 : pushedUrl (remote.fileCreate 0) = some u0 := by
    rw [h0]; simp [pushedUrl, hu0]
  have p1 : pushedUrl (remote.fileCreate 1) = none := pushedUrl_of_fails h1
  have p2 : pushedUrl (remote.fileCreate 2) = some u2 := by
    rw [h2]; simp [pushedUrl, hu2]
  have hup : (uploadImages remote [f0, f1, f2]).1 = [u0, u2] := by
    simp [uploadImages, uploadImagesGo, p0, p1, p2]
  refine ⟨hup, ?_, ?_, ?_⟩
  · simp [submitForm, hv, hm, hs]
  · rw [hup]
    simp only [handlerMetafieldInput, handlerMetafieldValue, jlookup]
    rw [lookupFields_cons_ne _ _ (by decide), lookupFields_cons_ne _ _ (by decide),
      lookupFields_cons_eq]
    rfl
  · simp [submitForm, hv, hm, hs, uploadImages, uploadImagesGo, p0, p1, p2]

/-- Witness for C4: with the second of three uploads answered by an HTTP 200
response carrying a non-empty `userErrors` list, the other two URLs are
collected in order and the submission succeeds. -/
theorem submitForm_per_image_failure_skipped_witness :
    (missingFields validBody).isEmpty = true ∧
    midFailRemote.fileCreate 0 = FileCreateOutcome.ok [] (some "https://cdn.example/a.png") ∧
    imageCallFails (midFailRemote.fileCreate 1) ∧
    midFailRemote.fileCreate 2 = FileCreateOutcome.ok [] (some "https://cdn.example/c.png") ∧
    midFailRemote.metafieldCreate = MetafieldOutcome.ok [] ∧
    midFailRemote.sendMail = true ∧
    (uploadImages midFailRemote [cFile "a", cFile "b", cFile "c"]).1 =
      ["https://cdn.example/a.png", "https://cdn.example/c.png"] ∧
    (submitForm cEnv midFailRemote validBody [cFile "a", cFile "b", cFile "c"] "t").1 =
      { status := 200, success := true, message := "Form submitted successfully!" } := by
  have h := submitForm_per_image_failure_skipped cEnv midFailRemote validBody
    (cFile "a") (cFile "b") (cFile "c") "t" "https://cdn.example/a.png"
    "https://cdn.example/c.png" [] rfl rfl (by decide)
    (Or.inr ⟨("files", "Invalid image data"), [], none, rfl⟩) rfl (by decide) rfl rfl
  exact ⟨rfl, rfl, Or.inr ⟨("files", "Invalid image data"), [], none, rfl⟩, rfl, rfl, rfl,
    h.1, h.2.1⟩

/-- C6: when the notifier's `sendMail` rejects after the metafield write
resolved, the outer catch maps the whole submission to HTTP 500 with
`success: false` — and the trace shows the record write and the mail attempt
both happened. -/
theorem submitForm_email_failure_fails_request (env : Env) (remote : Remote)
    (body : FormBody) (files : List UploadFile) (now : String)
    (errs : List (String × String))
    (hv : (missingFields body).isEmpty = true)
    (hm : remote.metafieldCreate = MetafieldOutcome.ok errs)
    (hs : remote.sendMail = false) :
    (submitForm env remote body files now).1 =
      { status := 500, success := false, message := "Internal server error" } ∧
    (submitForm env remote body files now).2 =
      (uploadImages remote files).2 ++
        [RemoteCall.metafieldCreate
           (handlerMetafieldInput env body (uploadImages remote files).1 now),
         RemoteCall.sendMail (handlerMail env body (uploadImages remote files).1)] := by
  constructor <;> simp [submitForm, hv, hm, hs]

/-- Witness for C6: a valid submission on which only the email send fails is
answered with 500 and `success: false`. -/
theorem submitForm_email_failure_fails_request_witness :
    (missingFields validBody).isEmpty = true ∧
    mailFailRemote.metafieldCreate = MetafieldOutcome.ok [] ∧
    mailFailRemote.sendMail = false ∧
    (submitForm cEnv mailFailRemote validBody [] "t").1 =
      { status := 500, success := false, message := "Internal server error" } :=
  ⟨rfl, rfl, rfl,
    (submitForm_email_failure_fails_request cEnv mailFailRemote validBody [] "t" []
      rfl rfl rfl).1⟩

/-- C9: a submission with zero images (and all required fields present)
still succeeds, the written record's `images` array is empty, and the
notification email's HTML ends in an empty images block. -/
theorem submitForm_zero_images (env : Env) (remote : Remote) (body : FormBody)
    (now : String) (errs : List (String × String))
    (hv : (missingFields body).isEmpty = true)
    (hm : remote.metafieldCreate = MetafieldOutcome.ok errs)
    (hs : remote.sendMail = true) :
    (submitForm env remote body [] now).1 =
      { status := 200, success := true, message := "Form submitted successfully!" } ∧
    (submitForm env remote body [] now).2 =
      [RemoteCall.metafieldCreate (handlerMetafieldInput env body [] now),
       RemoteCall.sendMail (handlerMail env body [])] ∧
    jlookup (handlerMetafieldInput env body [] now).value "images" =
      some (Json.arr []) ∧
    (handlerMail env body []).html =
      emailHtml (jsStr body.firstName ++ " " ++ jsStr body.lastName) body.email
        (body.additionalInfo.getD "") [] ∧
    imagesBlock [] = "" := by
  refine ⟨?_, ?_, ?_, rfl, rfl⟩
  · simp [submitForm, hv, hm, hs]
  · simp [submitForm, hv, hm, hs, uploadImages, uploadImagesGo]
  · simp only [handlerMetafieldInput, handlerMetafieldValue, jlookup]
    rw [lookupFields_cons_ne _ _ (by decide), lookupFields_cons_ne _ _ (by decide),
      lookupFields_cons_eq]
    rfl

/-- Witness for C9: the all-fields submission with no files succeeds and its
record's `images` array is empty. -/
theorem submitForm_zero_images_witness :
    (missingFields validBody).isEmpty = true ∧
    okRemote.metafieldCreate = MetafieldOutcome.ok [] ∧
    okRemote.sendMail = true ∧
    (submitForm cEnv okRemote validBody [] "t").1 =
      { status := 200, success := true, message := "Form submitted successfully!" } ∧
    jlookup (handlerMetafieldInput cEnv validBody [] "t").value "images" =
      some (Json.arr []) := by
  have h := submitForm_zero_images cEnv okRemote validBody "t" [] rfl rfl rfl
  exact ⟨rfl, rfl, rfl, h.1, h.2.2.1⟩

/-- C10: uploads run strictly sequentially and each successful URL is
appended in turn, so the collected list is the in-order `filterMap` of the
per-index outcomes over the submitted files; the record's `images` array and
the email's HTML are both built from exactly that list, listing the
surviving images in submission order. -/
theorem submitForm_preserves_image_order (env : Env) (remote : Remote)
    (body : FormBody) (files : List UploadFile) (now : String)
    (errs : List (String × String))
    (hv : (missingFields body).isEmpty = true)
    (hm : remote.metafieldCreate = MetafieldOutcome.ok errs) :
    (uploadImages remote files).1 =
      (List.range files.length).filterMap (fun j => pushedUrl (remote.fileCreate j)) ∧
    (submitForm env remote body files now).2 =
      files.map (fun f => RemoteCall.fileCreate (filePayload f)) ++
        [RemoteCall.metafieldCreate
           (handlerMetafieldInput env body
             ((List.range files.length).filterMap
               (fun j => pushedUrl (remote.fileCreate j))) now),
         RemoteCall.sendMail
           (handlerMail env body
             ((List.range files.length).filterMap
               (fun j => pushedUrl (remote.fileCreate j))))] ∧
    jlookup (handlerMetafieldValue body
        ((List.range files.length).filterMap
          (fun j => pushedUrl (remote.fileCreate j))) now) "images" =
      some (Json.arr (((List.range files.length).filterMap
        (fun j => pushedUrl (remote.fileCreate j))).map Json.str)) ∧
    (handlerMail env body
        ((List.range files.length).filterMap
          (fun j => pushedUrl (remote.fileCreate j)))).html =
      emailHtml (jsStr body.firstName ++ " " ++ jsStr body.lastName) body.email
        (body.additionalInfo.getD "")
        ((List.range files.length).filterMap
          (fun j => pushedUrl (remote.fileCreate j))) := by
  have hurls : (uploadImages remote files).1 =
      (List.range files.length).filterMap (fun j => pushedUrl (remote.fileCreate j)) := by
    rw [List.range_eq_range']
    exact uploadImagesGo_urls remote files 0
  have hcalls : (uploadImages remote files).2 =
      files.map (fun f => RemoteCall.fileCreate (filePayload f)) :=
    uploadImagesGo_calls remote files 0
  refine ⟨hurls, ?_, ?_, rfl⟩
  · cases hs : remote.sendMail <;>
      simp [submitForm, hv, hm, hs, hurls, hcalls]
  · simp only [handlerMetafieldValue, jlookup]
    rw [lookupFields_cons_ne _ _ (by decide), lookupFields_cons_ne _ _ (by decide),
      lookupFields_cons_eq]

/-- Witness for C10: on the three-file submission with a failing middle
upload, the collected list equals the in-order `filterMap` of the outcomes,
which evaluates to the first and third URLs in submission order. -/
theorem submitForm_preserves_image_order_witness :
    (missingFields validBody).isEmpty = true ∧
    midFailRemote.metafieldCreate = MetafieldOutcome.ok [] ∧
    (uploadImages midFailRemote [cFile "a", cFile "b", cFile "c"]).1 =
      (List.range [cFile "a", cFile "b", cFile "c"].length).filterMap
        (fun j => pushedUrl (midFailRemote.fileCreate j)) ∧
    (List.range [cFile "a", cFile "b", cFile "c"].length).filterMap
        (fun j => pushedUrl (midFailRemote.fileCreate j)) =
      ["https://cdn.example/a.png", "https://cdn.example/c.png"] := by
  refine ⟨rfl, rfl, ?_, rfl⟩
  exact (submitForm_preserves_image_order cEnv midFailRemote validBody
    [cFile "a", cFile "b", cFile "c"] "t" [] rfl rfl).1

end FormServer
